import Mathlib

/-!
Shallow embedding of `api/news.js` (ai-finance-hub): a serverless news
endpoint with an in-memory cache, a daily rewrite-call quota, duplicate
content detection, and fallback composition when the AI rewrite fails.

Modelling conventions:
- The module-level mutable variables (`newsCache`, `cacheTimestamp`,
  `dailyRequestCount`, `lastResetDate`) become the fields of `ServerState`;
  the handler becomes a pure transition `handler : ServerState →
  RequestInput → StepResult` returning the response, the new state, and the
  number of calls made to each upstream adapter during the request.
- Clock reads (`Date.now()`, `new Date().toDateString()`) are inputs of the
  request (`now`, `currentDate`); the several `new Date()` reads inside one
  request are treated as the same instant `now`.
- The outcomes of the two network calls (NewsAPI fetch, AI chat-completions
  call) are inputs (`FetchOutcome`, `AiOutcome`) describing what the upstream
  would return if called; exceptions in JS become explicit branches.
- JS timestamps are `Int` milliseconds.  JS truthiness is preserved where it
  matters: `cacheTimestamp` equal to `0` is falsy (treated as no cache),
  an empty `newsCache` array is truthy, an empty-string `description` or
  `errorMessage` is falsy.
- `toLocaleDateString`, ISO timestamp formatting and the exact text of JS
  runtime `TypeError` messages are abstracted by placeholder string
  functions/constants; no claim depends on their exact content.
-/

/-- An article as returned by NewsAPI (`newsData.articles[i]`).
`publishedAt` abstracts the date string as a millisecond timestamp;
`description` is `none` for null/undefined (empty string stays a value,
its JS falsiness is handled at use sites). -/
structure Article where
  title : String
  description : Option String
  sourceName : String
  publishedAt : Int
  url : String
  urlToImage : Option String
  deriving DecidableEq, Repr

/-- One element of the JSON array parsed out of the AI response text. -/
structure ParsedItem where
  title : String
  summary : String
  aiInsight : String
  category : String
  deriving DecidableEq, Repr

/-- A processed news item (member of `processedNews` / the cache).
`originalTitle` is `Option` because `getDefaultNews()` items lack the field
(undefined in JS). -/
structure NewsItem where
  id : Nat
  title : String
  source : String
  time : String
  summary : String
  aiInsight : String
  category : String
  url : String
  image : Option String
  originalTitle : Option String
  deriving DecidableEq, Repr

/-- The module-level mutable state of `api/news.js`. -/
structure ServerState where
  newsCache : Option (List NewsItem)
  cacheTimestamp : Option Int
  dailyRequestCount : Nat
  lastResetDate : String
  deriving DecidableEq, Repr

/-- Environment configuration relevant to control flow: whether
`NEWS_API_KEY` is set, and whether `OPENAI_API_KEY || ANTHROPIC_API_KEY`
yields a key. -/
structure Env where
  newsApiKey : Bool
  aiApiKey : Bool
  deriving DecidableEq, Repr

/-- Outcome of the NewsAPI fetch, had it been performed.
`ok articles` carries `newsData.articles || []`; `jsonError` is a body that
fails `newsResponse.json()`; `httpError` is a non-ok status with its body
text; `transportError` is a rejected fetch. -/
inductive FetchOutcome where
  | transportError (msg : String)
  | httpError (status : Nat) (body : String)
  | jsonError (msg : String)
  | ok (articles : List Article)
  deriving DecidableEq, Repr

/-- Outcome of the AI chat-completions call, had it been performed.
`parsed arr` means the call succeeded, `choices[0].message.content` was
present, and the fence-stripped text parsed as a JSON array `arr`;
`parseError` covers both unparsable text and a parse result that is not an
array (`.map` then throws); `missingFields` is a response without
`choices[0].message`. -/
inductive AiOutcome where
  | transportError (msg : String)
  | httpError (status : Nat)
  | missingFields
  | parseError (msg : String)
  | parsed (items : List ParsedItem)
  deriving DecidableEq, Repr

/-- All inputs of one request (clock reads, env, upstream behaviours).
Only non-OPTIONS requests are modelled: the OPTIONS preflight returns an
empty body before any of the logic below runs. -/
structure RequestInput where
  currentDate : String
  now : Int
  env : Env
  fetch : FetchOutcome
  ai : AiOutcome
  deriving DecidableEq, Repr

/-- The JSON envelope sent with `res.status(200).json(...)`.  `timestampMs`
is the millisecond value behind the ISO `timestamp` string. -/
structure ApiResponse where
  success : Bool
  news : List NewsItem
  timestampMs : Int
  fromCache : Bool
  message : Option String
  error : Option String
  dailyRequestsRemaining : Option Nat
  deriving DecidableEq, Repr

/-- Result of one request: the emitted response, the state left behind, and
how many calls were made to the headline source and to the rewrite service. -/
structure StepResult where
  resp : ApiResponse
  state : ServerState
  headlineCalls : Nat
  rewriteCalls : Nat
  deriving DecidableEq, Repr

def CACHE_DURATION : Int := 30 * 60 * 1000

def MAX_DAILY_REQUESTS : Nat := 50

/-- Placeholder for `published.toLocaleDateString('zh-TW')`. -/
def localeDateString (t : Int) : String := "zh-TW:" ++ toString t

/-- `getRelativeTime(publishedAt)`, with the `new Date()` read passed in as
`now`.  `Math.floor` of a JS division is floor division. -/
def getRelativeTime (now publishedAt : Int) : String :=
  let diffMs := now - publishedAt
  let diffHours := Int.fdiv diffMs (1000 * 60 * 60)
  let diffDays := Int.fdiv diffMs (1000 * 60 * 60 * 24)
  if diffHours < 1 then "剛剛"
  else if diffHours < 24 then toString diffHours ++ "小時前"
  else if diffDays < 7 then toString diffDays ++ "天前"
  else localeDateString publishedAt

/-- `getDefaultNews()`.  The JS object has no `image`/`originalTitle` keys,
modelled as `none`. -/
def getDefaultNews : List NewsItem :=
  [{ id := 1
     title := "歡迎使用 AI 財經工具站"
     source := "系統訊息"
     time := "現在"
     summary := "請檢查 Vercel 環境變量設定（NEWS_API_KEY, OPENAI_API_KEY, API_BASE_URL）。"
     aiInsight := "💡 設定完成後，您將獲得每日更新的財經新聞及專業 AI 投資分析。"
     category := "系統訊息"
     url := "https://github.com"
     image := none
     originalTitle := none }]

/-- `articlesAreSame(newArticles, cachedNews)`: false when `cachedNews` is
null or lengths differ, else every index must satisfy
`article.title === cachedNews[i].originalTitle` (false when `originalTitle`
is undefined). -/
def articlesAreSame (newArticles : List Article) (cachedNews : Option (List NewsItem)) : Bool :=
  match cachedNews with
  | none => false
  | some cached =>
    if newArticles.length ≠ cached.length then false
    else (newArticles.zip cached).all fun p => decide (some p.1.title = p.2.originalTitle)

/-- `createFallbackNews(articles, errorMessage)`.  Note the `slice(0, 3)`:
only the first three articles produce items.  `article.description || '…'`
and `errorMessage || '…'` follow JS falsiness (null/undefined/empty string
pick the default). -/
def createFallbackNews (now : Int) (articles : List Article) (errorMessage : String) : List NewsItem :=
  (articles.take 3).enum.map fun p =>
    { id := p.1 + 1
      title := p.2.title
      source := p.2.sourceName
      time := getRelativeTime now p.2.publishedAt
      summary :=
        match p.2.description with
        | some d => if d = "" then "請點擊閱讀原文查看詳情" else d
        | none => "請點擊閱讀原文查看詳情"
      aiInsight :=
        "💡 " ++ (if errorMessage = "" then "提示：請檢查 API Key 和 Base URL 設定" else errorMessage)
      category := "財經新聞"
      url := p.2.url
      image := p.2.urlToImage
      originalTitle := some p.2.title }

/-- The `parsedArray.map((parsed, index) => …)` building `processedNews`,
defined where every `articles[index]` exists (`arr` no longer than
`articles`); the longer case throws a `TypeError` in JS and is handled in
`rewriteResultItems`. -/
def buildItems (now : Int) (articles : List Article) (arr : List ParsedItem) : List NewsItem :=
  (arr.zip articles).enum.map fun p =>
    { id := p.1 + 1
      title := p.2.1.title
      source := p.2.2.sourceName
      time := getRelativeTime now p.2.2.publishedAt
      summary := p.2.1.summary
      aiInsight := p.2.1.aiInsight
      category := p.2.1.category
      url := p.2.2.url
      image := p.2.2.urlToImage
      originalTitle := some p.2.2.title }

/-- Placeholder for the JS `TypeError` message raised by
`articles[index].source` when `index` is out of range. -/
def typeErrorMsg : String := "Cannot read properties of undefined (reading source)"

/-- The `error.message` produced by each failing AI-call outcome (the
`parsed` case is only consulted for the out-of-range `TypeError`). -/
def aiErrMsg : AiOutcome → String
  | .transportError m => m
  | .httpError st => "AI API 響應錯誤 (" ++ toString st ++ ")"
  | .missingFields => "AI API 返回格式不正確"
  | .parseError m => m
  | .parsed _ => typeErrorMsg

/-- True on the AI-call outcomes the code itself detects and catches before
item building: transport error, non-2xx status, missing
`choices[0].message`, unparsable body. -/
def aiFailed : AiOutcome → Bool
  | .parsed _ => false
  | _ => true

/-- The `processedNews` computed inside the `if (API_KEY)` try/catch: a
parsed array no longer than `articles` is mapped to items; any other
outcome (including the `TypeError` on a longer array) lands in the catch
and yields fallback items with the error message embedded. -/
def rewriteResultItems (now : Int) (articles : List Article) (ai : AiOutcome) : List NewsItem :=
  match ai with
  | .parsed arr =>
    if arr.length ≤ articles.length then buildItems now articles arr
    else createFallbackNews now articles ("AI 處理出錯: " ++ aiErrMsg ai)
  | other => createFallbackNews now articles ("AI 處理出錯: " ++ aiErrMsg other)

/-- The daily counter reset at the top of the handler. -/
def resetDaily (s : ServerState) (currentDate : String) : ServerState :=
  if currentDate ≠ s.lastResetDate then
    { s with dailyRequestCount := 0, lastResetDate := currentDate }
  else s

/-- `newsCache && cacheTimestamp && (now - cacheTimestamp < CACHE_DURATION)`:
an empty cached array is truthy, a zero timestamp is falsy. -/
def cacheIsFresh : Option (List NewsItem) → Option Int → Int → Bool
  | some _, some t, now => decide (t ≠ 0) && decide (now - t < CACHE_DURATION)
  | _, _, _ => false

/-- The top-level catch: `success:false`, the diagnostic in `error`, and
`newsCache || getDefaultNews()` as the news body. -/
def errorResult (s : ServerState) (i : RequestInput) (msg : String) (hcalls : Nat) : StepResult :=
  { resp :=
      { success := false
        news := s.newsCache.getD getDefaultNews
        timestampMs := i.now
        fromCache := true
        message := none
        error := some msg
        dailyRequestsRemaining := none }
    state := s
    headlineCalls := hcalls
    rewriteCalls := 0 }

/-- Step 4 of the handler: overwrite the cache with `processed`, stamp the
timestamp, and answer `fromCache:false` with the remaining daily budget. -/
def finishRefresh (s : ServerState) (i : RequestInput) (processed : List NewsItem)
    (rcalls : Nat) : StepResult :=
  { resp :=
      { success := true
        news := processed
        timestampMs := i.now
        fromCache := false
        message := none
        error := none
        dailyRequestsRemaining := some (MAX_DAILY_REQUESTS - s.dailyRequestCount) }
    state := { s with newsCache := some processed, cacheTimestamp := some i.now }
    headlineCalls := 1
    rewriteCalls := rcalls }

/-- The AI-rewrite section: with a key, the counter is incremented first
inside the try (so every attempt costs one unit) and the try/catch produces
`rewriteResultItems`; without a key, fallback items with the no-key notice
and no rewrite call. -/
def processRewrite (s : ServerState) (i : RequestInput) (articles : List Article) : StepResult :=
  if i.env.aiApiKey then
    let s2 := { s with dailyRequestCount := s.dailyRequestCount + 1 }
    finishRefresh s2 i (rewriteResultItems i.now articles i.ai) 1
  else
    finishRefresh s i
      (createFallbackNews i.now articles "未檢測到 API_KEY (OPENAI_API_KEY 或 ANTHROPIC_API_KEY)") 0

/-- Steps 1-3 after the cache/quota short-circuits: key check, fetch,
empty check, duplicate-content check, then the rewrite section. -/
def handlerFetch (s : ServerState) (i : RequestInput) : StepResult :=
  if ¬ i.env.newsApiKey then errorResult s i "未設定 NEWS_API_KEY 變量" 0
  else
    match i.fetch with
    | .transportError m => errorResult s i m 1
    | .httpError st body =>
      errorResult s i ("NewsAPI 請求失敗: " ++ toString st ++ " " ++ body) 1
    | .jsonError m => errorResult s i m 1
    | .ok articles =>
      if articles.isEmpty then errorResult s i "NewsAPI 返回了空的新聞列表" 1
      else if s.newsCache.isSome && articlesAreSame articles s.newsCache then
        let s2 := { s with cacheTimestamp := some i.now }
        { resp :=
            { success := true
              news := s2.newsCache.getD []
              timestampMs := i.now
              fromCache := true
              message := none
              error := none
              dailyRequestsRemaining := none }
          state := s2
          headlineCalls := 1
          rewriteCalls := 0 }
      else processRewrite s i articles

/-- The whole request handler: daily reset, fresh-cache short-circuit,
daily-quota short-circuit, then the fetch/rewrite pipeline. -/
def handler (s : ServerState) (i : RequestInput) : StepResult :=
  let s1 := resetDaily s i.currentDate
  if cacheIsFresh s1.newsCache s1.cacheTimestamp i.now then
    { resp :=
        { success := true
          news := s1.newsCache.getD []
          timestampMs := s1.cacheTimestamp.getD 0
          fromCache := true
          message := none
          error := none
          dailyRequestsRemaining := none }
      state := s1
      headlineCalls := 0
      rewriteCalls := 0 }
  else if MAX_DAILY_REQUESTS ≤ s1.dailyRequestCount then
    { resp :=
        { success := true
          news := s1.newsCache.getD getDefaultNews
          timestampMs := i.now
          fromCache := true
          message := some "已達每日更新上限，顯示快取新聞"
          error := none
          dailyRequestsRemaining := none }
      state := s1
      headlineCalls := 0
      rewriteCalls := 0 }
  else handlerFetch s1 i

/-- A minimal article used by concrete witnesses/counterexamples. -/
def mkArticle (t : String) : Article :=
  { title := t, description := none, sourceName := "s", publishedAt := 0,
    url := "u", urlToImage := none }

/-- A minimal cached item with `originalTitle` set, used by concrete
witnesses/counterexamples. -/
def mkCachedItem (t : String) : NewsItem :=
  { id := 1, title := t, source := "s", time := "now", summary := "sum",
    aiInsight := "ai", category := "c", url := "u", image := none,
    originalTitle := some t }

/-- An empty-cache state used by concrete witnesses/counterexamples. -/
def emptyState : ServerState :=
  { newsCache := none, cacheTimestamp := none, dailyRequestCount := 0,
    lastResetDate := "Mon" }

lemma resetDaily_newsCache (s : ServerState) (d : String) :
    (resetDaily s d).newsCache = s.newsCache := by
  unfold resetDaily; split <;> rfl

lemma resetDaily_cacheTimestamp (s : ServerState) (d : String) :
    (resetDaily s d).cacheTimestamp = s.cacheTimestamp := by
  unfold resetDaily; split <;> rfl

lemma resetDaily_of_eq (s : ServerState) (d : String) (h : d = s.lastResetDate) :
    resetDaily s d = s := by
  unfold resetDaily; simp [h]

/-- A state with a one-item cache captured at time 500, used by witnesses. -/
def cachedStateA : ServerState :=
  { newsCache := some [mkCachedItem "A"], cacheTimestamp := some 500,
    dailyRequestCount := 0, lastResetDate := "Mon" }

/-- A state with a one-item cache captured at time 1 (stale by time
2000000), used by witnesses. -/
def staleStateA : ServerState :=
  { newsCache := some [mkCachedItem "A"], cacheTimestamp := some 1,
    dailyRequestCount := 0, lastResetDate := "Mon" }

/-- A state whose daily counter is at the limit, used by witnesses. -/
def quotaState : ServerState :=
  { newsCache := none, cacheTimestamp := none, dailyRequestCount := 50,
    lastResetDate := "Mon" }

/-- Both API keys configured. -/
def baseEnv : Env := { newsApiKey := true, aiApiKey := true }

/-- A parsed AI array of length two, shorter than a three-article batch. -/
def exampleParsed2 : List ParsedItem :=
  [{ title := "t1", summary := "s1", aiInsight := "a1", category := "c1" },
   { title := "t2", summary := "s2", aiInsight := "a2", category := "c2" }]

/-- Request: Monday, time 1000, one article, AI parses to an empty array. -/
def inputC1 : RequestInput :=
  { currentDate := "Mon", now := 1000, env := baseEnv,
    fetch := .ok [mkArticle "A"], ai := .parsed [] }

/-- Request at time 2000000 (stale for `staleStateA`) whose fetched article
matches the cached original title. -/
def inputC3 : RequestInput :=
  { currentDate := "Mon", now := 2000000, env := baseEnv,
    fetch := .ok [mkArticle "A"], ai := .parsed [] }

/-- Request whose AI call fails at transport level. -/
def inputC4 : RequestInput :=
  { currentDate := "Mon", now := 1000, env := baseEnv,
    fetch := .ok [mkArticle "A"], ai := .transportError "boom" }

/-- Request fetching three articles while the AI response parses to only
two items. -/
def inputC5 : RequestInput :=
  { currentDate := "Mon", now := 1000, env := baseEnv,
    fetch := .ok [mkArticle "A", mkArticle "B", mkArticle "C"],
    ai := .parsed exampleParsed2 }

/-- Request arriving on a different calendar day than `lastResetDate`. -/
def inputTue : RequestInput :=
  { currentDate := "Tue", now := 1000, env := baseEnv,
    fetch := .ok [mkArticle "A"], ai := .parsed [] }

lemma isEmpty_false_of_ne_nil {α : Type} {l : List α} (h : l ≠ []) :
    l.isEmpty = false := by
  cases l with
  | nil => exact absurd rfl h
  | cons a as => rfl

lemma handler_rewrite_reduction (s : ServerState) (i : RequestInput)
    (articles : List Article)
    (hfresh : cacheIsFresh s.newsCache s.cacheTimestamp i.now = false)
    (hquota : (resetDaily s i.currentDate).dailyRequestCount < MAX_DAILY_REQUESTS)
    (hkey : i.env.newsApiKey = true)
    (hfetch : i.fetch = .ok articles)
    (hne : articles ≠ [])
    (hnsame : (s.newsCache.isSome && articlesAreSame articles s.newsCache) = false)
    (hai : i.env.aiApiKey = true) :
    handler s i =
      finishRefresh
        { resetDaily s i.currentDate with
          dailyRequestCount := (resetDaily s i.currentDate).dailyRequestCount + 1 }
        i (rewriteResultItems i.now articles i.ai) 1 := by
  simp [handler, resetDaily_newsCache, resetDaily_cacheTimestamp, hfresh,
    Nat.not_le.mpr hquota, handlerFetch, hkey, hfetch,
    isEmpty_false_of_ne_nil hne, hnsame, processRewrite, hai]

lemma aiReason_ne_empty (m : String) : ("AI 處理出錯: " ++ m) ≠ "" := by
  intro h
  have h2 := congrArg String.length h
  simp [String.length_append] at h2
  exact (by decide : ("AI 處理出錯: ".length = 0) → False) h2.1

lemma mem_fallback_aiInsight (now : Int) (articles : List Article)
    (msg : String) (hmsg : msg ≠ "") (item : NewsItem)
    (hmem : item ∈ createFallbackNews now articles msg) :
    item.aiInsight = "💡 " ++ msg := by
  simp [createFallbackNews] at hmem
  obtain ⟨p, a, hpa, hitem⟩ := hmem
  subst hitem
  simp [hmsg]

lemma rewriteResultItems_of_failed (now : Int) (articles : List Article)
    (ai : AiOutcome) (h : aiFailed ai = true) :
    rewriteResultItems now articles ai =
      createFallbackNews now articles ("AI 處理出錯: " ++ aiErrMsg ai) := by
  cases ai with
  | parsed arr => simp [aiFailed] at h
  | transportError m => rfl
  | httpError st => rfl
  | missingFields => rfl
  | parseError m => rfl

/-- C1: while a cache entry exists (nonzero capture timestamp) and its age
`now - capturedAt` is strictly below the TTL, the handler answers with the
cached items unchanged, `fromCache = true`, `success = true`, and performs
no headline-source call and no rewrite-service call. -/
theorem C1_fresh_cache_short_circuit (s : ServerState) (i : RequestInput)
    (items : List NewsItem) (t : Int)
    (hc : s.newsCache = some items) (ht : s.cacheTimestamp = some t)
    (ht0 : t ≠ 0) (hage : i.now - t < CACHE_DURATION) :
    (handler s i).resp.news = items ∧ (handler s i).resp.fromCache = true ∧
    (handler s i).resp.success = true ∧ (handler s i).headlineCalls = 0 ∧
    (handler s i).rewriteCalls = 0 ∧ (handler s i).state.newsCache = some items := by
  have hfresh : cacheIsFresh (some items) (some t) i.now = true := by
    simp [cacheIsFresh, ht0, hage]
  simp [handler, resetDaily_newsCache, resetDaily_cacheTimestamp, hc, ht, hfresh]

/-- Witness for C1 at `cachedStateA` / `inputC1` (age 500 < TTL). -/
theorem C1_fresh_cache_short_circuit_witness :
    (handler cachedStateA inputC1).resp.news = [mkCachedItem "A"] ∧
    (handler cachedStateA inputC1).resp.fromCache = true ∧
    (handler cachedStateA inputC1).resp.success = true ∧
    (handler cachedStateA inputC1).headlineCalls = 0 ∧
    (handler cachedStateA inputC1).rewriteCalls = 0 ∧
    (handler cachedStateA inputC1).state.newsCache = some [mkCachedItem "A"] :=
  C1_fresh_cache_short_circuit cachedStateA inputC1 [mkCachedItem "A"] 500
    rfl rfl (by decide) (by decide)

/-- C2: a request on the current calendar day with the daily counter
already at or above the limit and a non-fresh cache answers with the cache
(or the static default), `fromCache = true`, the advisory message, and
leaves the counter unchanged without calling either adapter. -/
theorem C2_quota_exhausted_serves_cache (s : ServerState) (i : RequestInput)
    (hdate : i.currentDate = s.lastResetDate)
    (hfresh : cacheIsFresh s.newsCache s.cacheTimestamp i.now = false)
    (hquota : MAX_DAILY_REQUESTS ≤ s.dailyRequestCount) :
    (handler s i).resp.news = s.newsCache.getD getDefaultNews ∧
    (handler s i).resp.fromCache = true ∧
    (handler s i).resp.success = true ∧
    (handler s i).resp.message = some "已達每日更新上限，顯示快取新聞" ∧
    (handler s i).state.dailyRequestCount = s.dailyRequestCount ∧
    (handler s i).headlineCalls = 0 ∧ (handler s i).rewriteCalls = 0 := by
  have hr : resetDaily s i.currentDate = s := resetDaily_of_eq s i.currentDate hdate
  simp [handler, hr, hfresh, hquota]

/-- Witness for C2 at `quotaState` / `inputC1`. -/
theorem C2_quota_exhausted_serves_cache_witness :
    (handler quotaState inputC1).resp.news = getDefaultNews ∧
    (handler quotaState inputC1).resp.fromCache = true ∧
    (handler quotaState inputC1).resp.message = some "已達每日更新上限，顯示快取新聞" ∧
    (handler quotaState inputC1).state.dailyRequestCount = 50 := by
  have h := C2_quota_exhausted_serves_cache quotaState inputC1 rfl (by decide) (by decide)
  exact ⟨h.1, h.2.1, h.2.2.2.1, h.2.2.2.2.1⟩

/-- C3: with a stale cache, budget available, and fetched articles whose
titles match the cached original titles position-for-position, the handler
only re-stamps the cache timestamp, returns the cached items with
`fromCache = true`, makes no rewrite call and no counter increment. -/
theorem C3_same_content_touch (s : ServerState) (i : RequestInput)
    (articles : List Article) (cached : List NewsItem)
    (hfresh : cacheIsFresh s.newsCache s.cacheTimestamp i.now = false)
    (hquota : (resetDaily s i.currentDate).dailyRequestCount < MAX_DAILY_REQUESTS)
    (hkey : i.env.newsApiKey = true)
    (hfetch : i.fetch = .ok articles)
    (hne : articles ≠ [])
    (hc : s.newsCache = some cached)
    (hsame : articlesAreSame articles (some cached) = true) :
    (handler s i).resp.news = cached ∧
    (handler s i).resp.fromCache = true ∧
    (handler s i).resp.success = true ∧
    (handler s i).state.newsCache = some cached ∧
    (handler s i).state.cacheTimestamp = some i.now ∧
    (handler s i).state.dailyRequestCount = (resetDaily s i.currentDate).dailyRequestCount ∧
    (handler s i).rewriteCalls = 0 := by
  rw [hc] at hfresh
  simp [handler, resetDaily_newsCache, resetDaily_cacheTimestamp, hfresh,
    Nat.not_le.mpr hquota, handlerFetch, hkey, hfetch,
    isEmpty_false_of_ne_nil hne, hc, hsame]

/-- Witness for C3 at `staleStateA` / `inputC3`. -/
theorem C3_same_content_touch_witness :
    (handler staleStateA inputC3).resp.news = [mkCachedItem "A"] ∧
    (handler staleStateA inputC3).resp.fromCache = true ∧
    (handler staleStateA inputC3).state.cacheTimestamp = some 2000000 ∧
    (handler staleStateA inputC3).state.dailyRequestCount = 0 ∧
    (handler staleStateA inputC3).rewriteCalls = 0 := by
  have h := C3_same_content_touch staleStateA inputC3 [mkArticle "A"] [mkCachedItem "A"]
    (by decide) (by decide) rfl rfl (by decide) rfl (by decide)
  exact ⟨h.1, h.2.1, h.2.2.2.2.1, h.2.2.2.2.2.1, h.2.2.2.2.2.2⟩

/-- C4: whenever the rewrite call is attempted the counter is incremented
by exactly one whatever the outcome; on any of the failure modes the code
detects (transport error, non-2xx, missing `choices[0].message`, unparsable
body) the response still has `success = true`, no top-level `error`, and
the items are the Fallback Composer output with the diagnostic embedded in
every item's commentary (`aiInsight`). -/
theorem C4_rewrite_attempt_costs_one_and_fails_soft (s : ServerState)
    (i : RequestInput) (articles : List Article)
    (hfresh : cacheIsFresh s.newsCache s.cacheTimestamp i.now = false)
    (hquota : (resetDaily s i.currentDate).dailyRequestCount < MAX_DAILY_REQUESTS)
    (hkey : i.env.newsApiKey = true)
    (hfetch : i.fetch = .ok articles)
    (hne : articles ≠ [])
    (hnsame : (s.newsCache.isSome && articlesAreSame articles s.newsCache) = false)
    (hai : i.env.aiApiKey = true) :
    (handler s i).state.dailyRequestCount = (resetDaily s i.currentDate).dailyRequestCount + 1 ∧
    (handler s i).rewriteCalls = 1 ∧
    (aiFailed i.ai = true →
      (handler s i).resp.success = true ∧
      (handler s i).resp.error = none ∧
      (handler s i).resp.news =
        createFallbackNews i.now articles ("AI 處理出錯: " ++ aiErrMsg i.ai) ∧
      ∀ item ∈ (handler s i).resp.news,
        item.aiInsight = "💡 " ++ ("AI 處理出錯: " ++ aiErrMsg i.ai)) := by
  rw [handler_rewrite_reduction s i articles hfresh hquota hkey hfetch hne hnsame hai]
  refine ⟨rfl, rfl, fun hfail => ?_⟩
  rw [finishRefresh]
  refine ⟨rfl, rfl, ?_, ?_⟩
  · simp [rewriteResultItems_of_failed i.now articles i.ai hfail]
  · intro item hmem
    simp only [rewriteResultItems_of_failed i.now articles i.ai hfail] at hmem
    exact mem_fallback_aiInsight i.now articles _ (aiReason_ne_empty _) item hmem

/-- Witness for C4 at `emptyState` / `inputC4` (transport failure). -/
theorem C4_rewrite_attempt_costs_one_and_fails_soft_witness :
    (handler emptyState inputC4).state.dailyRequestCount = 1 ∧
    (handler emptyState inputC4).rewriteCalls = 1 ∧
    (handler emptyState inputC4).resp.success = true ∧
    (handler emptyState inputC4).resp.error = none ∧
    (handler emptyState inputC4).resp.news =
      createFallbackNews 1000 [mkArticle "A"] "AI 處理出錯: boom" := by
  have h := C4_rewrite_attempt_costs_one_and_fails_soft emptyState inputC4 [mkArticle "A"]
    (by decide) (by decide) rfl rfl (by decide) (by decide) rfl
  have h2 := h.2.2 rfl
  exact ⟨h.1, h.2.1, h2.1, h2.2.1, h2.2.2.1⟩

lemma createFallbackNews_length (now : Int) (articles : List Article) (msg : String) :
    (createFallbackNews now articles msg).length = min 3 articles.length := by
  simp [createFallbackNews]

lemma buildItems_length (now : Int) (articles : List Article) (arr : List ParsedItem) :
    (buildItems now articles arr).length = min arr.length articles.length := by
  simp [buildItems]

/-- C5 counterexample: with three fetched articles and an AI response that
parses to a two-element array, the handler answers with two items — the
result is silently truncated to the shorter length instead of falling back
to the Fallback Composer over the full batch. -/
theorem C5_counterexample_short_array_truncates :
    (handler emptyState inputC5).resp.news.length = 2 ∧
    inputC5.fetch = .ok [mkArticle "A", mkArticle "B", mkArticle "C"] ∧
    ([mkArticle "A", mkArticle "B", mkArticle "C"] : List Article).length = 3 ∧
    inputC5.ai = .parsed exampleParsed2 ∧ exampleParsed2.length = 2 :=
  ⟨rfl, rfl, rfl, rfl, rfl⟩

/-- C5 amended: a parsed array longer than the article batch makes item
building throw (`articles[index]` undefined), which the catch turns into
the Fallback Composer over the full batch with `success = true` (no crash
escapes); a parsed array no longer than the batch is NOT rejected — the
handler silently returns items truncated to the parsed length. -/
theorem C5_amended_length_mismatch_behaviour (s : ServerState) (i : RequestInput)
    (articles : List Article) (arr : List ParsedItem)
    (hfresh : cacheIsFresh s.newsCache s.cacheTimestamp i.now = false)
    (hquota : (resetDaily s i.currentDate).dailyRequestCount < MAX_DAILY_REQUESTS)
    (hkey : i.env.newsApiKey = true)
    (hfetch : i.fetch = .ok articles)
    (hne : articles ≠ [])
    (hnsame : (s.newsCache.isSome && articlesAreSame articles s.newsCache) = false)
    (hai : i.env.aiApiKey = true)
    (hparsed : i.ai = .parsed arr) :
    (articles.length < arr.length →
      (handler s i).resp.success = true ∧
      (handler s i).resp.error = none ∧
      (handler s i).resp.news =
        createFallbackNews i.now articles ("AI 處理出錯: " ++ typeErrorMsg)) ∧
    (arr.length ≤ articles.length →
      (handler s i).resp.news = buildItems i.now articles arr ∧
      (handler s i).resp.news.length = arr.length) := by
  rw [handler_rewrite_reduction s i articles hfresh hquota hkey hfetch hne hnsame hai]
  constructor
  · intro hlt
    have hrw : rewriteResultItems i.now articles i.ai =
        createFallbackNews i.now articles ("AI 處理出錯: " ++ typeErrorMsg) := by
      rw [hparsed]
      simp [rewriteResultItems, Nat.not_le.mpr hlt, aiErrMsg]
    rw [finishRefresh]
    exact ⟨rfl, rfl, by simp [hrw]⟩
  · intro hle
    have hrw : rewriteResultItems i.now articles i.ai = buildItems i.now articles arr := by
      rw [hparsed]
      simp [rewriteResultItems, hle]
    rw [finishRefresh]
    refine ⟨by simp [hrw], ?_⟩
    simp [hrw, buildItems_length, Nat.min_eq_left hle]

/-- Witness for the amended C5 at `emptyState` / `inputC5`. -/
theorem C5_amended_length_mismatch_behaviour_witness :
    (handler emptyState inputC5).resp.news =
      buildItems 1000 [mkArticle "A", mkArticle "B", mkArticle "C"] exampleParsed2 ∧
    (handler emptyState inputC5).resp.news.length = 2 :=
  (C5_amended_length_mismatch_behaviour emptyState inputC5
    [mkArticle "A", mkArticle "B", mkArticle "C"] exampleParsed2
    (by decide) (by decide) rfl rfl (by decide) (by decide) rfl rfl).2 (by decide)

lemma zip_all_titles_iff (na : List Article) (c : List NewsItem) :
    ((na.zip c).all fun p => decide (some p.1.title = p.2.originalTitle)) = true ↔
      ∀ (j : Nat) (hj : j < na.length) (hc : j < c.length),
        some (na.get ⟨j, hj⟩).title = (c.get ⟨j, hc⟩).originalTitle := by
  induction na generalizing c with
  | nil => cases c <;> simp
  | cons a as ih =>
    cases c with
    | nil => simp
    | cons b bs =>
      simp only [List.zip_cons_cons, List.all_cons, Bool.and_eq_true, decide_eq_true_eq, ih]
      constructor
      · rintro ⟨h0, hrest⟩ j hj hc
        cases j with
        | zero => exact h0
        | succ n => exact hrest n (Nat.lt_of_succ_lt_succ hj) (Nat.lt_of_succ_lt_succ hc)
      · intro h
        refine ⟨h 0 (Nat.succ_pos _) (Nat.succ_pos _), fun n hn hcn => ?_⟩
        exact h (n + 1) (Nat.succ_lt_succ hn) (Nat.succ_lt_succ hcn)

/-- C6: `articlesAreSame` is true exactly when the cached entry exists,
lengths agree, and each new title equals the cached `originalTitle` at the
same index; and it is order-sensitive — cached titles B,A,C against new
titles A,B,C give false even though the title multisets are equal. -/
theorem C6_articlesAreSame_characterisation :
    (∀ (na : List Article) (co : Option (List NewsItem)),
      articlesAreSame na co = true ↔
        ∃ c, co = some c ∧ na.length = c.length ∧
          ∀ (j : Nat) (hj : j < na.length) (hc : j < c.length),
            some (na.get ⟨j, hj⟩).title = (c.get ⟨j, hc⟩).originalTitle) ∧
    articlesAreSame [mkArticle "A", mkArticle "B", mkArticle "C"]
      (some [mkCachedItem "B", mkCachedItem "A", mkCachedItem "C"]) = false ∧
    (["A", "B", "C"] : List String).Perm ["B", "A", "C"] := by
  refine ⟨?_, by decide, by decide⟩
  intro na co
  cases co with
  | none => simp [articlesAreSame]
  | some c =>
    by_cases hlen : na.length = c.length
    · simp only [articlesAreSame, hlen, ne_eq, not_true_eq_false, if_false,
        zip_all_titles_iff, Option.some.injEq]
      constructor
      · intro h
        exact ⟨c, rfl, rfl, h⟩
      · rintro ⟨c2, rfl, hlen2, h⟩
        exact h
    · simp only [articlesAreSame, ne_eq, hlen, not_false_eq_true, if_true,
        Option.some.injEq]
      constructor
      · intro h
        exact absurd h (by simp)
      · rintro ⟨c2, rfl, hlen2, h⟩
        exact absurd hlen2 hlen

/-- Witness for C6: the characterisation applied at a concrete
one-article/one-item match. -/
theorem C6_articlesAreSame_characterisation_witness :
    articlesAreSame [mkArticle "A"] (some [mkCachedItem "A"]) = true := by
  refine (C6_articlesAreSame_characterisation.1 [mkArticle "A"]
    (some [mkCachedItem "A"])).mpr ⟨[mkCachedItem "A"], rfl, rfl, ?_⟩
  intro j hj hc
  cases j with
  | zero => rfl
  | succ n => exact absurd hj (by simp)

/-- C7 counterexample: the Fallback Composer slices the batch to three
items (`articles.slice(0, 3)`), so with four input articles the output
length is 3, not the input count 4. -/
theorem C7_counterexample_four_articles :
    (createFallbackNews 0
      [mkArticle "A", mkArticle "B", mkArticle "C", mkArticle "D"] "m").length = 3 ∧
    ([mkArticle "A", mkArticle "B", mkArticle "C", mkArticle "D"] : List Article).length = 4 :=
  ⟨rfl, rfl⟩

/-- C7 amended: the Fallback Composer is total and produces
`min 3 (input count)` items — so exactly the input count whenever at most
three articles are supplied — and every output item's `originalTitle` is
the corresponding input article's title in order. -/
theorem C7_amended_fallback_composer_shape (now : Int) (articles : List Article)
    (msg : String) :
    (createFallbackNews now articles msg).length = min 3 articles.length ∧
    (createFallbackNews now articles msg).map (fun item => item.originalTitle) =
      (articles.take 3).map (fun a => some a.title) := by
  refine ⟨createFallbackNews_length now articles msg, ?_⟩
  rw [createFallbackNews, List.map_map]
  conv_rhs => rw [← List.enum_map_snd (articles.take 3), List.map_map]
  rfl

lemma createFallbackNews_ne_nil (now : Int) (articles : List Article) (msg : String)
    (hne : articles ≠ []) : createFallbackNews now articles msg ≠ [] := by
  intro h
  have hl := createFallbackNews_length now articles msg
  rw [h] at hl
  rcases Nat.min_eq_zero_iff.mp hl.symm with h3 | h3
  · exact absurd h3 (by decide)
  · exact hne (List.length_eq_zero.mp h3)

lemma getD_default_ne_nil (s : ServerState)
    (hcache : ∀ c, s.newsCache = some c → c ≠ []) :
    s.newsCache.getD getDefaultNews ≠ [] := by
  cases hc : s.newsCache with
  | none => simp [getDefaultNews]
  | some c => simpa using hcache c hc

lemma rewriteResultItems_ne_nil (now : Int) (articles : List Article) (ai : AiOutcome)
    (hne : articles ≠ [])
    (hai : ∀ arr, ai = .parsed arr → arr ≠ []) :
    rewriteResultItems now articles ai ≠ [] := by
  cases ai with
  | parsed arr =>
    have harr := hai arr rfl
    by_cases hle : arr.length ≤ articles.length
    · simp only [rewriteResultItems, hle, if_true]
      intro h
      have hl := buildItems_length now articles arr
      rw [h] at hl
      rcases Nat.min_eq_zero_iff.mp hl.symm with h3 | h3
      · exact harr (List.length_eq_zero.mp h3)
      · exact hne (List.length_eq_zero.mp h3)
    · simp only [rewriteResultItems, hle, if_false]
      exact createFallbackNews_ne_nil now articles _ hne
  | transportError m => exact createFallbackNews_ne_nil now articles _ hne
  | httpError st => exact createFallbackNews_ne_nil now articles _ hne
  | missingFields => exact createFallbackNews_ne_nil now articles _ hne
  | parseError m => exact createFallbackNews_ne_nil now articles _ hne

lemma handlerFetch_news_ne_nil (s : ServerState) (i : RequestInput)
    (hcache : ∀ c, s.newsCache = some c → c ≠ [])
    (hai : ∀ arr, i.ai = .parsed arr → arr ≠ []) :
    (handlerFetch s i).resp.news ≠ [] := by
  unfold handlerFetch
  split
  · exact getD_default_ne_nil s hcache
  · split
    · exact getD_default_ne_nil s hcache
    · exact getD_default_ne_nil s hcache
    · exact getD_default_ne_nil s hcache
    · rename_i articles heq
      split
      · exact getD_default_ne_nil s hcache
      · split
        · rename_i hsame
          have hsome : s.newsCache.isSome = true := by
            have h2 := hsame
            simp only [Bool.and_eq_true] at h2
            exact h2.1
          cases hc : s.newsCache with
          | none => rw [hc] at hsome; exact absurd hsome (by simp)
          | some c => simpa [hc] using hcache c hc
        · rename_i hemp hsame
          have hne : articles ≠ [] := by
            intro h
            rw [h] at hemp
            exact hemp rfl
          unfold processRewrite
          split
          · simp only [finishRefresh]
            exact rewriteResultItems_ne_nil i.now articles i.ai hne hai
          · simp only [finishRefresh]
            exact createFallbackNews_ne_nil i.now articles _ hne

/-- C8 counterexample: an AI response parsing to the empty array makes the
handler emit a successful response whose `news` array is empty (and caches
the empty list), so callers can receive an empty news list. -/
theorem C8_counterexample_empty_parsed_array :
    (handler emptyState inputC1).resp.news = [] ∧
    (handler emptyState inputC1).resp.success = true ∧
    (handler emptyState inputC1).state.newsCache = some [] :=
  ⟨rfl, rfl, rfl⟩

/-- C8 amended: every response carries a non-empty `news` array PROVIDED
the cache, when present, is non-empty and the AI response never parses to
an empty array; the code itself does not enforce either side condition. -/
theorem C8_amended_news_nonempty (s : ServerState) (i : RequestInput)
    (hcache : ∀ c, s.newsCache = some c → c ≠ [])
    (hai : ∀ arr, i.ai = .parsed arr → arr ≠ []) :
    (handler s i).resp.news ≠ [] := by
  have hcache1 : ∀ c, (resetDaily s i.currentDate).newsCache = some c → c ≠ [] := by
    rw [resetDaily_newsCache]
    exact hcache
  by_cases h1 : cacheIsFresh (resetDaily s i.currentDate).newsCache
      (resetDaily s i.currentDate).cacheTimestamp i.now = true
  · simp only [handler, h1, if_true]
    cases hc : (resetDaily s i.currentDate).newsCache with
    | none =>
      rw [hc] at h1
      cases hts : (resetDaily s i.currentDate).cacheTimestamp <;>
        rw [hts] at h1 <;> simp [cacheIsFresh] at h1
    | some c => simpa [hc] using hcache1 c hc
  · by_cases h2 : MAX_DAILY_REQUESTS ≤ (resetDaily s i.currentDate).dailyRequestCount
    · simp only [handler, h1, h2, if_true, if_false, Bool.false_eq_true]
      exact getD_default_ne_nil (resetDaily s i.currentDate) hcache1
    · simp only [handler, h1, h2, if_false, Bool.false_eq_true]
      exact handlerFetch_news_ne_nil (resetDaily s i.currentDate) i hcache1 hai

/-- Witness for the amended C8 at `emptyState` / `inputC4` (AI transport
failure; both side conditions hold vacuously). -/
theorem C8_amended_news_nonempty_witness :
    (handler emptyState inputC4).resp.news ≠ [] :=
  C8_amended_news_nonempty emptyState inputC4
    (fun c h => by cases h) (fun arr h => by cases h)

lemma handlerFetch_state_facts (s : ServerState) (i : RequestInput) :
    s.dailyRequestCount ≤ (handlerFetch s i).state.dailyRequestCount ∧
    (handlerFetch s i).state.dailyRequestCount ≤ s.dailyRequestCount + 1 ∧
    (handlerFetch s i).state.lastResetDate = s.lastResetDate := by
  unfold handlerFetch
  split
  · exact ⟨Nat.le_refl _, Nat.le_succ _, rfl⟩
  · split
    · exact ⟨Nat.le_refl _, Nat.le_succ _, rfl⟩
    · exact ⟨Nat.le_refl _, Nat.le_succ _, rfl⟩
    · exact ⟨Nat.le_refl _, Nat.le_succ _, rfl⟩
    · split
      · exact ⟨Nat.le_refl _, Nat.le_succ _, rfl⟩
      · split
        · exact ⟨Nat.le_refl _, Nat.le_succ _, rfl⟩
        · unfold processRewrite
          split
          · exact ⟨Nat.le_succ _, Nat.le_refl _, rfl⟩
          · exact ⟨Nat.le_refl _, Nat.le_succ _, rfl⟩

lemma handler_state_facts (s : ServerState) (i : RequestInput) :
    (resetDaily s i.currentDate).dailyRequestCount ≤ (handler s i).state.dailyRequestCount ∧
    (handler s i).state.dailyRequestCount ≤ (resetDaily s i.currentDate).dailyRequestCount + 1 ∧
    (handler s i).state.lastResetDate = (resetDaily s i.currentDate).lastResetDate := by
  by_cases h1 : cacheIsFresh (resetDaily s i.currentDate).newsCache
      (resetDaily s i.currentDate).cacheTimestamp i.now = true
  · simp only [handler, h1, if_true]
    exact ⟨Nat.le_refl _, Nat.le_succ _, trivial⟩
  · by_cases h2 : MAX_DAILY_REQUESTS ≤ (resetDaily s i.currentDate).dailyRequestCount
    · simp only [handler, h1, h2, if_true, if_false, Bool.false_eq_true]
      exact ⟨Nat.le_refl _, Nat.le_succ _, trivial⟩
    · simp only [handler, h1, h2, if_false, Bool.false_eq_true]
      exact handlerFetch_state_facts (resetDaily s i.currentDate) i

/-- C9: on a request observing the stored date, the daily counter never
decreases; on a request observing a different date, the stored date is
updated and the counter is reset to zero (ending at most 1 after the
request's own possible increment), and any follow-up request on the same
new date no longer resets — so the reset happens exactly once per date
change. -/
theorem C9_daily_counter_reset_and_monotonicity (s : ServerState) (i : RequestInput) :
    (i.currentDate = s.lastResetDate →
      s.dailyRequestCount ≤ (handler s i).state.dailyRequestCount) ∧
    (i.currentDate ≠ s.lastResetDate →
      (handler s i).state.lastResetDate = i.currentDate ∧
      (handler s i).state.dailyRequestCount ≤ 1 ∧
      ∀ i2 : RequestInput, i2.currentDate = i.currentDate →
        (handler (handler s i).state i2).state.dailyRequestCount ≥
          (handler s i).state.dailyRequestCount) := by
  constructor
  · intro hd
    have h := (handler_state_facts s i).1
    rwa [resetDaily_of_eq s i.currentDate hd] at h
  · intro hd
    have hreset : resetDaily s i.currentDate =
        { s with dailyRequestCount := 0, lastResetDate := i.currentDate } := by
      unfold resetDaily
      simp [hd]
    have hfacts := handler_state_facts s i
    have hdate2 : (handler s i).state.lastResetDate = i.currentDate := by
      rw [hfacts.2.2, hreset]
    refine ⟨hdate2, ?_, ?_⟩
    · have h := hfacts.2.1
      rw [hreset] at h
      exact h
    · intro i2 hi2
      have h2 := (handler_state_facts (handler s i).state i2).1
      rwa [resetDaily_of_eq (handler s i).state i2.currentDate (by rw [hi2, hdate2])] at h2

/-- Witness for C9: same-date monotonicity at `emptyState` / `inputC1`, and
single reset with date update at `emptyState` / `inputTue`. -/
theorem C9_daily_counter_reset_and_monotonicity_witness :
    emptyState.dailyRequestCount ≤ (handler emptyState inputC1).state.dailyRequestCount ∧
    (handler emptyState inputTue).state.lastResetDate = "Tue" ∧
    (handler emptyState inputTue).state.dailyRequestCount ≤ 1 :=
  ⟨(C9_daily_counter_reset_and_monotonicity emptyState inputC1).1 rfl,
   ((C9_daily_counter_reset_and_monotonicity emptyState inputTue).2 (by decide)).1,
   ((C9_daily_counter_reset_and_monotonicity emptyState inputTue).2 (by decide)).2.1⟩

/-- C10: a `fromCache = false` response is a successful fresh refresh and
carries `dailyRequestsRemaining = MAX_DAILY_REQUESTS` minus the
post-request counter; every `fromCache = true` response — fresh cache,
quota exhausted, duplicate content, or error — omits the field. -/
theorem C10_remaining_quota_field_presence (s : ServerState) (i : RequestInput) :
    ((handler s i).resp.fromCache = false →
      (handler s i).resp.success = true ∧
      (handler s i).resp.dailyRequestsRemaining =
        some (MAX_DAILY_REQUESTS - (handler s i).state.dailyRequestCount)) ∧
    ((handler s i).resp.fromCache = true →
      (handler s i).resp.dailyRequestsRemaining = none) := by
  by_cases h1 : cacheIsFresh (resetDaily s i.currentDate).newsCache
      (resetDaily s i.currentDate).cacheTimestamp i.now = true
  · simp only [handler, h1, if_true]
    simp
  · by_cases h2 : MAX_DAILY_REQUESTS ≤ (resetDaily s i.currentDate).dailyRequestCount
    · simp only [handler, h1, h2, if_true, if_false, Bool.false_eq_true]
      simp
    · simp only [handler, h1, h2, if_false, Bool.false_eq_true]
      unfold handlerFetch
      split
      · simp [errorResult]
      · split
        · simp [errorResult]
        · simp [errorResult]
        · simp [errorResult]
        · split
          · simp [errorResult]
          · split
            · simp
            · unfold processRewrite
              split
              · simp [finishRefresh]
              · simp [finishRefresh]

/-- Witness for C10: the field is present on a fresh refresh
(`emptyState` / `inputC4`) and absent on a cache hit
(`cachedStateA` / `inputC1`). -/
theorem C10_remaining_quota_field_presence_witness :
    (handler emptyState inputC4).resp.dailyRequestsRemaining =
      some (MAX_DAILY_REQUESTS - (handler emptyState inputC4).state.dailyRequestCount) ∧
    (handler cachedStateA inputC1).resp.dailyRequestsRemaining = none :=
  ⟨((C10_remaining_quota_field_presence emptyState inputC4).1 rfl).2,
   (C10_remaining_quota_field_presence cachedStateA inputC1).2 rfl⟩
